import Mathlib

/-!
Shallow embedding of the WebGL triangle-rendering scripts of this repository.

The repository holds near-duplicate scripts: a multi-triangle variant
(`webgl.js`, first document) and a single-triangle variant (second document of
`webgl.js` and of `src/unnamed/part_000`).  Each script is a linear sequence of
backend (WebGL) calls: acquire a context, compile two shaders, link a program,
resolve attribute/uniform locations, upload static geometry, and run a
`drawScene` function once.

The embedding records every backend call as an event in a trace, and models the
backend (the browser's WebGL implementation) as an oracle `GLBackend` that
decides context availability, compile/link status, diagnostic logs and location
lookups.  Handles (shaders, programs, buffers) are natural numbers allocated in
program order.  Floating-point literals of the source are represented as exact
rationals; the 4x4 matrices are produced by the external `mat4` library, so
matrix values are represented symbolically by the library call that built them
(the field of view is recorded in degrees: the source passes `45 * Math.PI /
180` radians, a fixed injective function of the degree operand 45).

Null-object arguments need care.  In the WebIDL bindings in force, the shader
parameter of `attachShader` and the program parameter of the location lookups
are non-nullable: passing null throws a `TypeError` that, uncaught, terminates
the script before any further backend call.  Two models are therefore given.
`createProgram`, `getAttribLocation`, `getUniformLocation` and `runScript`
record every call uniformly (treating a null object as an argument value) and
are exact at non-null arguments — the only arguments they are used at in the
theorems about the linking and rendering paths.  `createProgramCurrent` and
`runScriptCurrent` model the binding semantics in force: a null object
argument throws, the run ends with the `TypeError`, and no further call is
recorded; on paths where every object argument is non-null the two models
coincide (`createProgramCurrent_agrees`, `runScriptCurrent_agrees_on_beGood`).
The theorems about the failed-compile path use the `Current` model.
-/

namespace WebGLScene

/-- Shader stage kind: the `gl.VERTEX_SHADER` / `gl.FRAGMENT_SHADER` argument
of `createShader`. -/
inductive ShaderType where
  | vertex
  | fragment
deriving DecidableEq, Repr

/-- Symbolic 4x4 matrix values: one constructor per `mat4` library call the
scripts perform.  `perspective` records fovy in degrees (see module header),
aspect, near and far; `translate` records the matrix being translated and the
offset vector. -/
inductive Mat4 where
  | identity
  | perspective (fovyDeg aspect near far : ℚ)
  | translate (m : Mat4) (x y z : ℚ)
deriving DecidableEq, Repr

/-- WebGL enum constant `gl.ARRAY_BUFFER`. -/
def GL_ARRAY_BUFFER : Nat := 34962

/-- WebGL enum constant `gl.STATIC_DRAW`. -/
def GL_STATIC_DRAW : Nat := 35044

/-- WebGL enum constant `gl.FLOAT`. -/
def GL_FLOAT : Nat := 5126

/-- WebGL enum constant `gl.TRIANGLES`. -/
def GL_TRIANGLES : Nat := 4

/-- WebGL enum constant `gl.COLOR_BUFFER_BIT` (bit 14). -/
def GL_COLOR_BUFFER_BIT : Nat := 16384

/-- WebGL enum constant `gl.DEPTH_BUFFER_BIT` (bit 8). -/
def GL_DEPTH_BUFFER_BIT : Nat := 256

/-- One backend call (or console diagnostic) issued by a script, recorded with
its arguments; for the `create*` calls the allocated handle is recorded too. -/
inductive Evt where
  | getContextReq (kind : String)
  | consoleError (msg : String)
  | createShaderC (t : ShaderType) (shader : Nat)
  | shaderSourceC (shader : Nat) (src : String)
  | compileShaderC (shader : Nat)
  | deleteShaderC (shader : Nat)
  | createProgramC (program : Nat)
  | attachShaderC (program : Nat) (shader : Option Nat)
  | linkProgramC (program : Nat)
  | deleteProgramC (program : Nat)
  | getAttribLocationC (program : Option Nat) (name : String)
  | getUniformLocationC (program : Option Nat) (name : String)
  | createBufferC (buf : Nat)
  | bindBufferC (target : Nat) (buf : Nat)
  | bufferDataC (target : Nat) (data : List ℚ) (usage : Nat)
  | clearColorC (r g b a : ℚ)
  | clearC (mask : Nat)
  | useProgramC (program : Option Nat)
  | vertexAttribPointerC (loc : Int) (size : Nat) (ty : Nat) (normalized : Bool)
      (stride offset : Nat)
  | enableVertexAttribArrayC (loc : Int)
  | uniformMatrix4fvC (loc : Option Nat) (transpose : Bool) (value : Mat4)
  | drawArraysC (mode : Nat) (first count : Nat)
  | enableC (cap : Nat)
deriving DecidableEq, Repr

/-- The WebGL backend as an oracle: which context kinds the drawable surface
supports, whether a compile/link succeeds, the diagnostic logs, and the
location tables of a successfully linked program. -/
structure GLBackend where
  hasContext : String → Bool
  compileOk : ShaderType → String → Bool
  shaderInfoLog : ShaderType → String → String
  linkStatus : Option Nat → Option Nat → Bool
  programInfoLog : String
  attribLoc : String → Int
  uniformLoc : String → Option Nat

/-- The vertex shader source text (whitespace-normalized; braces written as
escapes).  Passed opaquely to the backend compiler. -/
def vertexShaderSource : String :=
  "attribute vec4 aVertexPosition; attribute vec4 aVertexColor; " ++
  "uniform mat4 uModelViewMatrix; uniform mat4 uProjectionMatrix; " ++
  "varying lowp vec4 vColor; void main(void) \x7b " ++
  "gl_Position = uProjectionMatrix * uModelViewMatrix * aVertexPosition; " ++
  "vColor = aVertexColor; \x7d"

/-- The fragment shader source text (whitespace-normalized; braces written as
escapes). -/
def fragmentShaderSource : String :=
  "varying lowp vec4 vColor; void main(void) \x7b " ++
  "gl_FragColor = vColor; \x7d"

/-- `createShader(gl, type, source)` of the scripts: create a shader handle,
upload the source, compile; on compile failure log the diagnostic, delete the
shader and return null, otherwise return the handle.  `shader` is the handle
the backend allocates for this call. -/
def createShader (be : GLBackend) (shader : Nat) (t : ShaderType) (source : String) :
    List Evt × Option Nat :=
  let pre := [Evt.createShaderC t shader, Evt.shaderSourceC shader source,
              Evt.compileShaderC shader]
  if !(be.compileOk t source) then
    (pre ++ [Evt.consoleError ("Shader compilation error: " ++ be.shaderInfoLog t source),
             Evt.deleteShaderC shader], none)
  else
    (pre, some shader)

/-- `createProgram(gl, vertexShader, fragmentShader)` of the scripts: create a
program handle, attach both shaders, link; on link failure log the diagnostic
and return null (the program handle is not deleted), otherwise return the
handle.  This rendering records a null shader argument like any other value;
it is exact at non-null arguments, which are the only ones the theorems using
it concern — see `createProgramCurrent` for the binding behavior at null. -/
def createProgram (be : GLBackend) (program : Nat) (vs fs : Option Nat) :
    List Evt × Option Nat :=
  let pre := [Evt.createProgramC program, Evt.attachShaderC program vs,
              Evt.attachShaderC program fs, Evt.linkProgramC program]
  if !(be.linkStatus vs fs) then
    (pre ++ [Evt.consoleError ("Program linking error: " ++ be.programInfoLog)], none)
  else
    (pre, some program)

/-- `gl.getAttribLocation(program, name)`: the backend's attribute table
answers.  Exact at non-null programs, the only arguments the theorems using it
concern (the binding in force throws a `TypeError` on a null program; the
`Current` script model never reaches this call with null). -/
def getAttribLocation (be : GLBackend) (program : Option Nat) (name : String) :
    Evt × Int :=
  (Evt.getAttribLocationC program name,
   match program with
   | none => -1
   | some _ => be.attribLoc name)

/-- `gl.getUniformLocation(program, name)`: the backend's uniform table
answers.  Exact at non-null programs, the only arguments the theorems using it
concern (the binding in force throws a `TypeError` on a null program; the
`Current` script model never reaches this call with null). -/
def getUniformLocation (be : GLBackend) (program : Option Nat) (name : String) :
    Evt × Option Nat :=
  (Evt.getUniformLocationC program name,
   match program with
   | none => none
   | some _ => be.uniformLoc name)

/-- One entry of the hard-coded geometry: a flat list of vertex positions
(3 components per vertex) and a flat list of vertex colors (4 components per
vertex). -/
structure TriangleData where
  positions : List ℚ
  colors : List ℚ
deriving DecidableEq, Repr

/-- `trianglesData` of the multi-triangle variant: two triangles at z = -3 and
z = -2 with per-vertex RGBA colors. -/
def trianglesData : List TriangleData :=
  [{ positions := [-1/2, -1/2, -3,
                    1/2, -1/2, -3,
                    0,    1/2, -3],
     colors := [1, 0, 0, 1,
                0, 1, 0, 1,
                0, 0, 1, 1] },
   { positions := [-3/10, -3/10, -2,
                    7/10, -3/10, -2,
                    1/5,   7/10, -2],
     colors := [0, 0, 1, 1,
                0, 1, 1, 1,
                1, 0, 0, 1] }]

/-- `triangleData` of the single-triangle variant: one triangle at z = -3. -/
def triangleData : TriangleData :=
  { positions := [-1/2, -1/2, -3,
                   1/2, -1/2, -3,
                   0,    1/2, -3],
    colors := [1, 0, 0, 1,
               0, 1, 0, 1,
               0, 0, 1, 1] }

/-- The per-triangle record the multi-triangle variant builds: the two buffer
handles and `vertexCount = positions.length / 3` (source line 131). -/
structure GeoBuffer where
  position : Nat
  color : Nat
  vertexCount : Nat
deriving DecidableEq, Repr

/-- The `trianglesData.map` of the multi-triangle variant: for each triangle
create and fill a position buffer and a color buffer (handles allocated in
order starting at `h`) and record the handles with the vertex count.  Returns
the emitted call trace and the list of `GeoBuffer` records in creation
order. -/
def createBuffers (h : Nat) : List TriangleData → List Evt × List GeoBuffer
  | [] => ([], [])
  | td :: rest =>
      let here := [Evt.createBufferC h,
                   Evt.bindBufferC GL_ARRAY_BUFFER h,
                   Evt.bufferDataC GL_ARRAY_BUFFER td.positions GL_STATIC_DRAW,
                   Evt.createBufferC (h + 1),
                   Evt.bindBufferC GL_ARRAY_BUFFER (h + 1),
                   Evt.bufferDataC GL_ARRAY_BUFFER td.colors GL_STATIC_DRAW]
      let next := createBuffers (h + 2) rest
      (here ++ next.1,
       { position := h, color := h + 1,
         vertexCount := td.positions.length / 3 } :: next.2)

/-- The module-level state the multi-triangle variant's `drawScene` reads: the
canvas dimensions, the program handle, the resolved location table
(`programInfo`) and the geometry buffer records. -/
structure SceneState where
  canvasWidth : ℚ
  canvasHeight : ℚ
  program : Option Nat
  vertexPosition : Int
  vertexColor : Int
  projectionMatrix : Option Nat
  modelViewMatrix : Option Nat
  buffers : List GeoBuffer
deriving DecidableEq, Repr

/-- The `buffers.forEach` callback of the multi-triangle variant's `drawScene`
(webgl.js lines 159-198): bind the buffer's position storage (3 float
components, no normalization, stride/offset 0), bind its color storage (4
float components), upload the two matrices, and draw the buffer's vertices as
triangles. -/
def drawSceneCallback (s : SceneState) (projectionMatrix modelViewMatrix : Mat4)
    (buffer : GeoBuffer) : List Evt :=
  [Evt.bindBufferC GL_ARRAY_BUFFER buffer.position,
   Evt.vertexAttribPointerC s.vertexPosition 3 GL_FLOAT false 0 0,
   Evt.enableVertexAttribArrayC s.vertexPosition,
   Evt.bindBufferC GL_ARRAY_BUFFER buffer.color,
   Evt.vertexAttribPointerC s.vertexColor 4 GL_FLOAT false 0 0,
   Evt.enableVertexAttribArrayC s.vertexColor,
   Evt.uniformMatrix4fvC s.projectionMatrix false projectionMatrix,
   Evt.uniformMatrix4fvC s.modelViewMatrix false modelViewMatrix,
   Evt.drawArraysC GL_TRIANGLES 0 buffer.vertexCount]

/-- `drawScene()` of the multi-triangle variant (webgl.js lines 136-199):
clear to the fixed background color, recompute the projection and model-view
matrices from fixed constants and the canvas aspect ratio, activate the
program, then for each buffer record bind positions (3 float components, no
normalization, stride/offset 0), bind colors (4 float components), upload both
matrices and draw its vertices as triangles.  It assigns no module-level
variable, so the state is returned unchanged alongside the emitted trace. -/
def drawScene (s : SceneState) : SceneState × List Evt :=
  let projectionMatrix := Mat4.perspective 45 (s.canvasWidth / s.canvasHeight) (1/10) 100
  let modelViewMatrix := Mat4.translate Mat4.identity 0 0 (-6)
  (s,
   [Evt.clearColorC 0 0 0 1,
    Evt.clearC (GL_COLOR_BUFFER_BIT ||| GL_DEPTH_BUFFER_BIT),
    Evt.useProgramC s.program] ++
   s.buffers.flatMap (drawSceneCallback s projectionMatrix modelViewMatrix))

/-- Outcome of running the multi-triangle script top to bottom: either the
thrown fatal error with the trace up to that point, or the final module state
with the full trace. -/
inductive ScriptResult where
  | fatal (msg : String) (trace : List Evt)
  | ok (state : SceneState) (trace : List Evt)
deriving Repr

/-- The trace of a script outcome. -/
def runTrace : ScriptResult → List Evt
  | .fatal _ tr => tr
  | .ok _ tr => tr

/-- The whole multi-triangle script (webgl.js, first document), run against a
backend: request a "webgl" context (throwing "WebGL not supported" if absent),
compile both shaders (handles 0 and 1), link the program (handle 2), resolve
the four locations, create the geometry buffers (handles from 3), and call
`drawScene` once.  `canvasWidth`/`canvasHeight` are the surface dimensions the
hosting document supplies. -/
def runScript (be : GLBackend) (canvasWidth canvasHeight : ℚ) : ScriptResult :=
  let t0 := [Evt.getContextReq "webgl"]
  if !(be.hasContext "webgl") then
    .fatal "WebGL not supported" (t0 ++ [Evt.consoleError "WebGL not supported"])
  else
    let cs1 := createShader be 0 .vertex vertexShaderSource
    let cs2 := createShader be 1 .fragment fragmentShaderSource
    let cp := createProgram be 2 cs1.2 cs2.2
    let l1 := getAttribLocation be cp.2 "aVertexPosition"
    let l2 := getAttribLocation be cp.2 "aVertexColor"
    let l3 := getUniformLocation be cp.2 "uProjectionMatrix"
    let l4 := getUniformLocation be cp.2 "uModelViewMatrix"
    let bufs := createBuffers 3 trianglesData
    let s : SceneState :=
      { canvasWidth := canvasWidth, canvasHeight := canvasHeight,
        program := cp.2, vertexPosition := l1.2, vertexColor := l2.2,
        projectionMatrix := l3.2, modelViewMatrix := l4.2, buffers := bufs.2 }
    let d := drawScene s
    .ok d.1 (t0 ++ cs1.1 ++ cs2.1 ++ cp.1 ++ [l1.1, l2.1, l3.1, l4.1] ++ bufs.1 ++ d.2)

/-- The module-level state the single-triangle variant's `drawScene` reads:
as `SceneState` but with one position buffer and one color buffer. -/
structure SceneStateS where
  canvasWidth : ℚ
  canvasHeight : ℚ
  program : Option Nat
  vertexPosition : Int
  vertexColor : Int
  projectionMatrix : Option Nat
  modelViewMatrix : Option Nat
  positionBuffer : Nat
  colorBuffer : Nat
deriving DecidableEq, Repr

/-- `drawScene()` of the single-triangle variant (part_000 lines 212-272):
same structure as the multi-triangle `drawScene` but with the single buffer
pair and a hard-coded vertex count of 3 in the draw call. -/
def drawSceneSingle (s : SceneStateS) : SceneStateS × List Evt :=
  let projectionMatrix := Mat4.perspective 45 (s.canvasWidth / s.canvasHeight) (1/10) 100
  let modelViewMatrix := Mat4.translate Mat4.identity 0 0 (-6)
  (s,
   [Evt.clearColorC 0 0 0 1,
    Evt.clearC (GL_COLOR_BUFFER_BIT ||| GL_DEPTH_BUFFER_BIT),
    Evt.useProgramC s.program,
    Evt.bindBufferC GL_ARRAY_BUFFER s.positionBuffer,
    Evt.vertexAttribPointerC s.vertexPosition 3 GL_FLOAT false 0 0,
    Evt.enableVertexAttribArrayC s.vertexPosition,
    Evt.bindBufferC GL_ARRAY_BUFFER s.colorBuffer,
    Evt.vertexAttribPointerC s.vertexColor 4 GL_FLOAT false 0 0,
    Evt.enableVertexAttribArrayC s.vertexColor,
    Evt.uniformMatrix4fvC s.projectionMatrix false projectionMatrix,
    Evt.uniformMatrix4fvC s.modelViewMatrix false modelViewMatrix,
    Evt.drawArraysC GL_TRIANGLES 0 3])

/-- Outcome of running the single-triangle script. -/
inductive ScriptResultS where
  | fatal (msg : String) (trace : List Evt)
  | ok (state : SceneStateS) (trace : List Evt)
deriving Repr

/-- The trace of a single-triangle script outcome. -/
def runTraceS : ScriptResultS → List Evt
  | .fatal _ tr => tr
  | .ok _ tr => tr

/-- The whole single-triangle script (part_000, second document), run against a
backend: same setup as the multi-triangle script but with one position buffer
(handle 3) and one color buffer (handle 4), and one `drawScene` call. -/
def runScriptSingle (be : GLBackend) (canvasWidth canvasHeight : ℚ) : ScriptResultS :=
  let t0 := [Evt.getContextReq "webgl"]
  if !(be.hasContext "webgl") then
    .fatal "WebGL not supported" (t0 ++ [Evt.consoleError "WebGL not supported"])
  else
    let cs1 := createShader be 0 .vertex vertexShaderSource
    let cs2 := createShader be 1 .fragment fragmentShaderSource
    let cp := createProgram be 2 cs1.2 cs2.2
    let l1 := getAttribLocation be cp.2 "aVertexPosition"
    let l2 := getAttribLocation be cp.2 "aVertexColor"
    let l3 := getUniformLocation be cp.2 "uProjectionMatrix"
    let l4 := getUniformLocation be cp.2 "uModelViewMatrix"
    let tb := [Evt.createBufferC 3,
               Evt.bindBufferC GL_ARRAY_BUFFER 3,
               Evt.bufferDataC GL_ARRAY_BUFFER triangleData.positions GL_STATIC_DRAW,
               Evt.createBufferC 4,
               Evt.bindBufferC GL_ARRAY_BUFFER 4,
               Evt.bufferDataC GL_ARRAY_BUFFER triangleData.colors GL_STATIC_DRAW]
    let s : SceneStateS :=
      { canvasWidth := canvasWidth, canvasHeight := canvasHeight,
        program := cp.2, vertexPosition := l1.2, vertexColor := l2.2,
        projectionMatrix := l3.2, modelViewMatrix := l4.2,
        positionBuffer := 3, colorBuffer := 4 }
    let d := drawSceneSingle s
    .ok d.1 (t0 ++ cs1.1 ++ cs2.1 ++ cp.1 ++ [l1.1, l2.1, l3.1, l4.1] ++ tb ++ d.2)

/-- The context acquisition step alone (webgl.js lines 2-3), as the source
performs it: a single `getContext("webgl")` request; the Boolean records
whether a context handle was obtained. -/
def acquireContext (be : GLBackend) : List Evt × Bool :=
  ([Evt.getContextReq "webgl"], be.hasContext "webgl")

/-- The Context Acquirer as the specification describes it (spec section 4.1):
request a context preferring the newer API version ("webgl2"), falling back to
the older version ("webgl") if unavailable; succeeds when either request
succeeds.  Written from the spec's words, for comparison with
`acquireContext`. -/
def acquireContextSpecDescribed (be : GLBackend) : List Evt × Bool :=
  if be.hasContext "webgl2" then
    ([Evt.getContextReq "webgl2"], true)
  else
    ([Evt.getContextReq "webgl2", Evt.getContextReq "webgl"], be.hasContext "webgl")

/-- A fully working backend: both context kinds available, every compile and
any link with both stages present succeeds, distinct locations resolved. -/
def beGood : GLBackend :=
  { hasContext := fun _ => true
    compileOk := fun _ _ => true
    shaderInfoLog := fun _ _ => ""
    linkStatus := fun vs fs => vs.isSome && fs.isSome
    programInfoLog := ""
    attribLoc := fun name => if name == "aVertexPosition" then 0 else 1
    uniformLoc := fun name => if name == "uProjectionMatrix" then some 0 else some 1 }

/-- A surface with no graphics support: every context request fails. -/
def beNoGL : GLBackend :=
  { hasContext := fun _ => false
    compileOk := fun _ _ => true
    shaderInfoLog := fun _ _ => ""
    linkStatus := fun vs fs => vs.isSome && fs.isSome
    programInfoLog := ""
    attribLoc := fun _ => 0
    uniformLoc := fun _ => some 0 }

/-- A backend on which the vertex shader fails to compile (with a diagnostic
log) while the fragment shader compiles; a link without both stages fails. -/
def beBadVertex : GLBackend :=
  { hasContext := fun kind => kind == "webgl"
    compileOk := fun t _ => match t with | .vertex => false | .fragment => true
    shaderInfoLog := fun _ _ => "ERROR: 0:1: syntax error"
    linkStatus := fun vs fs => vs.isSome && fs.isSome
    programInfoLog := "missing vertex shader"
    attribLoc := fun _ => 0
    uniformLoc := fun _ => some 0 }

/-- A backend on which every compile and every link fails. -/
def beAllFail : GLBackend :=
  { hasContext := fun kind => kind == "webgl"
    compileOk := fun _ _ => false
    shaderInfoLog := fun _ _ => "compile failed"
    linkStatus := fun _ _ => false
    programInfoLog := "link failed"
    attribLoc := fun _ => 0
    uniformLoc := fun _ => some 0 }

/-- A surface supporting only the newer API version: a "webgl2" request would
succeed, a "webgl" request fails. -/
def beOnlyWebgl2 : GLBackend :=
  { hasContext := fun kind => kind == "webgl2"
    compileOk := fun _ _ => true
    shaderInfoLog := fun _ _ => ""
    linkStatus := fun vs fs => vs.isSome && fs.isSome
    programInfoLog := ""
    attribLoc := fun _ => 0
    uniformLoc := fun _ => some 0 }

/-- The draw-call vertex counts of a trace, in order: one entry per
`drawArrays` event. -/
def drawCounts (tr : List Evt) : List Nat :=
  tr.filterMap (fun e => match e with | Evt.drawArraysC _ _ c => some c | _ => none)

/-- The `TypeError` the WebIDL binding throws when null is passed for the
non-nullable `WebGLShader` parameter of `attachShader`. -/
def typeErrorShader : String :=
  "TypeError: attachShader: argument 2 is not a WebGLShader"

/-- The `TypeError` the WebIDL binding throws when null is passed for the
non-nullable `WebGLProgram` parameter of `getAttribLocation`. -/
def typeErrorProgram : String :=
  "TypeError: getAttribLocation: argument 1 is not a WebGLProgram"

/-- `createProgram` under the WebIDL bindings in force: `gl.createProgram()`
executes first; then `attachShader` with a null shader argument throws a
`TypeError` at the binding layer — no further backend call of this function
is recorded and the error propagates (`Except.error`).  With both stages
non-null the behavior is that of `createProgram`
(see `createProgramCurrent_agrees`). -/
def createProgramCurrent (be : GLBackend) (program : Nat) (vs fs : Option Nat) :
    List Evt × Except String (Option Nat) :=
  match vs with
  | none => ([Evt.createProgramC program], Except.error typeErrorShader)
  | some v =>
    match fs with
    | none => ([Evt.createProgramC program, Evt.attachShaderC program (some v)],
               Except.error typeErrorShader)
    | some f =>
        let pre := [Evt.createProgramC program, Evt.attachShaderC program (some v),
                    Evt.attachShaderC program (some f), Evt.linkProgramC program]
        if !(be.linkStatus (some v) (some f)) then
          (pre ++ [Evt.consoleError ("Program linking error: " ++ be.programInfoLog)],
           Except.ok none)
        else
          (pre, Except.ok (some program))

/-- The multi-triangle script under the WebIDL bindings in force: as
`runScript`, except that a `TypeError` thrown inside `createProgram` (null
shader attached) or at the first location lookup (null program after a link
failure) terminates the run uncaught — the outcome is `fatal` with the
`TypeError` and the trace up to the throwing call, and nothing after it
runs. -/
def runScriptCurrent (be : GLBackend) (canvasWidth canvasHeight : ℚ) : ScriptResult :=
  let t0 := [Evt.getContextReq "webgl"]
  if !(be.hasContext "webgl") then
    .fatal "WebGL not supported" (t0 ++ [Evt.consoleError "WebGL not supported"])
  else
    let cs1 := createShader be 0 .vertex vertexShaderSource
    let cs2 := createShader be 1 .fragment fragmentShaderSource
    let cp := createProgramCurrent be 2 cs1.2 cs2.2
    match cp.2 with
    | Except.error e => .fatal e (t0 ++ cs1.1 ++ cs2.1 ++ cp.1)
    | Except.ok none => .fatal typeErrorProgram (t0 ++ cs1.1 ++ cs2.1 ++ cp.1)
    | Except.ok (some p) =>
        let l1 := getAttribLocation be (some p) "aVertexPosition"
        let l2 := getAttribLocation be (some p) "aVertexColor"
        let l3 := getUniformLocation be (some p) "uProjectionMatrix"
        let l4 := getUniformLocation be (some p) "uModelViewMatrix"
        let bufs := createBuffers 3 trianglesData
        let s : SceneState :=
          { canvasWidth := canvasWidth, canvasHeight := canvasHeight,
            program := some p, vertexPosition := l1.2, vertexColor := l2.2,
            projectionMatrix := l3.2, modelViewMatrix := l4.2, buffers := bufs.2 }
        let d := drawScene s
        .ok d.1 (t0 ++ cs1.1 ++ cs2.1 ++ cp.1 ++ [l1.1, l2.1, l3.1, l4.1] ++ bufs.1 ++ d.2)

/-- The fatal message of a script outcome, if it ended fatally. -/
def runFatalMsg : ScriptResult → Option String
  | .fatal msg _ => some msg
  | .ok _ _ => none

/-- Whether a trace contains any `createProgram` call. -/
def hasCreateProgramCall (tr : List Evt) : Bool :=
  tr.any fun e => match e with | Evt.createProgramC _ => true | _ => false

/-- Whether a trace contains any `linkProgram` call. -/
def hasLinkCall (tr : List Evt) : Bool :=
  tr.any fun e => match e with | Evt.linkProgramC _ => true | _ => false

/-- Whether a trace contains any attribute or uniform location lookup. -/
def hasLocationLookup (tr : List Evt) : Bool :=
  tr.any fun e => match e with
    | Evt.getAttribLocationC _ _ => true
    | Evt.getUniformLocationC _ _ => true
    | _ => false

/-- Helper: the draw-call counts of the `drawScene` buffer loop are exactly the
recorded vertex counts, one per buffer, in order. -/
theorem drawCounts_callback (s : SceneState) (p m : Mat4) (l : List GeoBuffer) :
    drawCounts (l.flatMap (drawSceneCallback s p m)) = l.map (fun b => b.vertexCount) := by
  induction l with
  | nil => simp [drawCounts]
  | cons b rest ih =>
      simp [drawCounts, drawSceneCallback, List.filterMap_append] at ih ⊢
      exact ih

/-- Helper: `createShader` never issues an `enable` capability call. -/
theorem enableC_notin_createShader (be : GLBackend) (sh : Nat) (t : ShaderType)
    (src : String) (cap : Nat) : Evt.enableC cap ∉ (createShader be sh t src).1 := by
  unfold createShader
  split <;> simp

/-- Helper: `createProgram` never issues an `enable` capability call. -/
theorem enableC_notin_createProgram (be : GLBackend) (p : Nat) (vs fs : Option Nat)
    (cap : Nat) : Evt.enableC cap ∉ (createProgram be p vs fs).1 := by
  unfold createProgram
  split <;> simp

/-- Helper: buffer creation never issues an `enable` capability call. -/
theorem enableC_notin_createBuffers (l : List TriangleData) (h cap : Nat) :
    Evt.enableC cap ∉ (createBuffers h l).1 := by
  induction l generalizing h with
  | nil => simp [createBuffers]
  | cons td rest ih =>
      simp [createBuffers]
      exact ih _

/-- Helper: the multi-triangle `drawScene` never issues an `enable` capability
call. -/
theorem enableC_notin_drawScene (s : SceneState) (cap : Nat) :
    Evt.enableC cap ∉ (drawScene s).2 := by
  simp [drawScene, drawSceneCallback]

/-- Helper: the single-triangle `drawScene` never issues an `enable` capability
call. -/
theorem enableC_notin_drawSceneSingle (s : SceneStateS) (cap : Nat) :
    Evt.enableC cap ∉ (drawSceneSingle s).2 := by
  simp [drawSceneSingle]

/-- Helper: on both stages non-null, the binding-faithful `createProgramCurrent`
emits the same trace and returns the same program result as `createProgram`. -/
theorem createProgramCurrent_agrees (be : GLBackend) (p v f : Nat) :
    (createProgramCurrent be p (some v) (some f)).1 = (createProgram be p (some v) (some f)).1
  ∧ (createProgramCurrent be p (some v) (some f)).2
      = Except.ok (createProgram be p (some v) (some f)).2 := by
  by_cases hl : be.linkStatus (some v) (some f) = false <;>
    simp [createProgramCurrent, createProgram, hl]

/-- Helper: on a fully successful backend the binding-faithful script model and
the uniform-recording script model coincide. -/
theorem runScriptCurrent_agrees_on_beGood :
    runScriptCurrent beGood 640 480 = runScript beGood 640 480 := rfl

/-- Claim C1, counterexample: on a backend where the vertex shader fails to
compile — `createShader` returns the null handle, witnessed by the
`deleteShader(0)` call — the caller does not treat that null result as fatal
before proceeding: it calls `createProgram` with the null handle (a
`createProgram` call appears in the trace after the failed compile), and the
run ends with the binding's uncaught `TypeError` from `attachShader(program,
null)` rather than by any caller-side check.  (The trace indeed contains no
`linkProgram` call and no location lookup — but by crash, not by the fatal
treatment the claim asserts.) -/
theorem nullShader_caller_proceeds_counterexample :
    Evt.deleteShaderC 0 ∈ runTrace (runScriptCurrent beBadVertex 640 480)
  ∧ hasCreateProgramCall (runTrace (runScriptCurrent beBadVertex 640 480)) = true
  ∧ runFatalMsg (runScriptCurrent beBadVertex 640 480) = some typeErrorShader
  ∧ hasLinkCall (runTrace (runScriptCurrent beBadVertex 640 480)) = false
  ∧ hasLocationLookup (runTrace (runScriptCurrent beBadVertex 640 480)) = false := by
  decide

/-- Claim C1, amended: whenever `compileShader` returns a null handle, no
`linkProgram` call and no attribute/uniform location lookup is performed with
the null handle — but not because the caller treats the null result as fatal:
the caller proceeds, calling `createProgram` with the null handle (program
handle 2 is created), and it is the binding's `TypeError` thrown at
`attachShader(program, null)` that terminates the run, uncaught, before any
link or lookup.  Stated for every backend with a context on which the vertex
stage fails to compile. -/
theorem nullShader_crash_not_caller_check (be : GLBackend) (w h : ℚ)
    (hc : be.hasContext "webgl" = true)
    (hv : be.compileOk .vertex vertexShaderSource = false) :
    runFatalMsg (runScriptCurrent be w h) = some typeErrorShader
  ∧ Evt.createProgramC 2 ∈ runTrace (runScriptCurrent be w h)
  ∧ Evt.deleteShaderC 0 ∈ runTrace (runScriptCurrent be w h)
  ∧ hasLinkCall (runTrace (runScriptCurrent be w h)) = false
  ∧ hasLocationLookup (runTrace (runScriptCurrent be w h)) = false := by
  have h1 : (createShader be 0 .vertex vertexShaderSource).2 = none := by
    simp [createShader, hv]
  rcases Bool.eq_false_or_eq_true (be.compileOk .fragment fragmentShaderSource) with hf | hf <;>
    simp [runScriptCurrent, hc, h1, createProgramCurrent, runFatalMsg, runTrace,
          hasLinkCall, hasLocationLookup, createShader, hv, hf]

/-- Claim C1, witness for `nullShader_crash_not_caller_check` at the concrete
backend `beBadVertex` and a 640x480 surface. -/
theorem nullShader_crash_not_caller_check_witness :
    beBadVertex.hasContext "webgl" = true
  ∧ beBadVertex.compileOk .vertex vertexShaderSource = false
  ∧ runFatalMsg (runScriptCurrent beBadVertex 640 480) = some typeErrorShader :=
  ⟨by decide, by decide,
   (nullShader_crash_not_caller_check beBadVertex 640 480 (by decide) (by decide)).1⟩

/-- Claim C2, counterexample: on a surface that supports only the newer API
version ("webgl2"), the spec-described acquirer would succeed, but the code's
acquirer fails and never even requests the newer version — the code issues a
single request for "webgl" with no preference for, or fallback from, the newer
version. -/
theorem context_preference_counterexample :
    beOnlyWebgl2.hasContext "webgl2" = true
  ∧ (acquireContextSpecDescribed beOnlyWebgl2).2 = true
  ∧ (acquireContext beOnlyWebgl2).2 = false
  ∧ Evt.getContextReq "webgl2" ∉ (acquireContext beOnlyWebgl2).1 := by
  decide

/-- Claim C2, amended: given a drawable surface, the Context Acquirer issues
exactly one context request, for the "webgl" API version, and obtains a
context handle exactly when that version is supported; no other version is
ever requested. -/
theorem acquireContext_single_request (be : GLBackend) :
    (acquireContext be).1 = [Evt.getContextReq "webgl"]
  ∧ (acquireContext be).2 = be.hasContext "webgl" :=
  ⟨rfl, rfl⟩

/-- Claim C3: for any context (backend), `compileShader` on source the backend
accepts returns the non-null freshly allocated handle; on source it rejects,
the shader handle is released (`deleteShader` appears in the trace), a
non-empty diagnostic containing the backend's info log is emitted, and null is
returned. -/
theorem compileShader_result (be : GLBackend) (shader : Nat) (t : ShaderType)
    (src : String) :
    (be.compileOk t src = true → (createShader be shader t src).2 = some shader)
  ∧ (be.compileOk t src = false →
        (createShader be shader t src).2 = none
      ∧ Evt.deleteShaderC shader ∈ (createShader be shader t src).1
      ∧ Evt.consoleError ("Shader compilation error: " ++ be.shaderInfoLog t src)
          ∈ (createShader be shader t src).1
      ∧ 0 < ("Shader compilation error: " ++ be.shaderInfoLog t src).length) := by
  constructor
  · intro hcp
    simp [createShader, hcp]
  · intro hcp
    have h26 : ("Shader compilation error: ").length = 26 := rfl
    refine ⟨by simp [createShader, hcp], by simp [createShader, hcp],
            by simp [createShader, hcp], ?_⟩
    rw [String.length_append, h26]
    omega

/-- Claim C3, witness for `compileShader_result`: a successful compile on
`beGood` and a failing compile on `beAllFail`, at concrete inputs. -/
theorem compileShader_result_witness :
    (createShader beGood 0 .vertex vertexShaderSource).2 = some 0
  ∧ (createShader beAllFail 1 .fragment fragmentShaderSource).2 = none :=
  ⟨(compileShader_result beGood 0 .vertex vertexShaderSource).1 rfl,
   ((compileShader_result beAllFail 1 .fragment fragmentShaderSource).2 rfl).1⟩

/-- Claim C4: when the surface supports no graphics context, the run fails
fatally: the script's outcome is the thrown "WebGL not supported" error, the
whole trace is the single context request followed by the reported error (so
there is no retry), and no compile, link, or draw call ever occurs. -/
theorem contextUnavailable_halts (be : GLBackend) (w h : ℚ)
    (hc : be.hasContext "webgl" = false) :
    runScript be w h = ScriptResult.fatal "WebGL not supported"
        [Evt.getContextReq "webgl", Evt.consoleError "WebGL not supported"]
  ∧ (∀ sh, Evt.compileShaderC sh ∉ runTrace (runScript be w h))
  ∧ (∀ p, Evt.linkProgramC p ∉ runTrace (runScript be w h))
  ∧ (∀ m f c, Evt.drawArraysC m f c ∉ runTrace (runScript be w h)) := by
  have key : runScript be w h = ScriptResult.fatal "WebGL not supported"
      [Evt.getContextReq "webgl", Evt.consoleError "WebGL not supported"] := by
    simp [runScript, hc]
  refine ⟨key, ?_, ?_, ?_⟩ <;> simp [key, runTrace]

/-- Claim C4, witness for `contextUnavailable_halts` at the concrete backend
`beNoGL` and a 640x480 surface. -/
theorem contextUnavailable_halts_witness :
    beNoGL.hasContext "webgl" = false
  ∧ runScript beNoGL 640 480 = ScriptResult.fatal "WebGL not supported"
      [Evt.getContextReq "webgl", Evt.consoleError "WebGL not supported"] :=
  ⟨rfl, (contextUnavailable_halts beNoGL 640 480 rfl).1⟩

/-- Claim C5: every `drawScene` call emits exactly the backend-call sequence
the spec describes — clear to the fixed background color (black, with color
and depth bits), then activate the program, then for each geometry buffer in
creation order: bind positions (3 float components, unnormalized, stride and
offset 0), bind colors (4 float components, unnormalized), upload the freshly
recomputed projection matrix `perspective(45°, width/height, 0.1, 100)` and
model-view matrix `translate(identity, (0,0,-6))`, and issue exactly one
triangle-list draw over the buffer's vertex count (the draw-call counts of the
trace are exactly the buffers' vertex counts, in order). -/
theorem drawScene_call_sequence (s : SceneState) :
    (drawScene s).2 =
      [Evt.clearColorC 0 0 0 1,
       Evt.clearC (GL_COLOR_BUFFER_BIT ||| GL_DEPTH_BUFFER_BIT),
       Evt.useProgramC s.program] ++
      s.buffers.flatMap (fun b =>
        [Evt.bindBufferC GL_ARRAY_BUFFER b.position,
         Evt.vertexAttribPointerC s.vertexPosition 3 GL_FLOAT false 0 0,
         Evt.enableVertexAttribArrayC s.vertexPosition,
         Evt.bindBufferC GL_ARRAY_BUFFER b.color,
         Evt.vertexAttribPointerC s.vertexColor 4 GL_FLOAT false 0 0,
         Evt.enableVertexAttribArrayC s.vertexColor,
         Evt.uniformMatrix4fvC s.projectionMatrix false
           (Mat4.perspective 45 (s.canvasWidth / s.canvasHeight) (1/10) 100),
         Evt.uniformMatrix4fvC s.modelViewMatrix false
           (Mat4.translate Mat4.identity 0 0 (-6)),
         Evt.drawArraysC GL_TRIANGLES 0 b.vertexCount])
  ∧ drawCounts ((drawScene s).2) = s.buffers.map (fun b => b.vertexCount) := by
  constructor
  · rfl
  · have h1 := drawCounts_callback s
      (Mat4.perspective 45 (s.canvasWidth / s.canvasHeight) (1/10) 100)
      (Mat4.translate Mat4.identity 0 0 (-6)) s.buffers
    simp [drawCounts, List.filterMap_append] at h1 ⊢
    simp [drawScene, List.filterMap_append]
    exact h1

/-- Claim C6: `drawScene` is idempotent — in both variants, calling it again
on the state the first call returned yields the same resulting state and the
same full call trace (and hence the same matrices and draw calls). -/
theorem drawScene_idempotent :
    (∀ s : SceneState, drawScene ((drawScene s).1) = drawScene s)
  ∧ (∀ s : SceneStateS, drawSceneSingle ((drawSceneSingle s).1) = drawSceneSingle s) :=
  ⟨fun _ => rfl, fun _ => rfl⟩

/-- Claim C7: every geometry buffer built from the hard-coded data satisfies
`positions.length = 3 * vertexCount` and `colors.length = 4 * vertexCount`
with `vertexCount = positions.length / 3` (multi-triangle variant, each buffer
record zipped with its triangle data); the single-triangle data satisfies the
same equations; and in full runs of both scripts the draw-call vertex counts
are exactly `positions.length / 3` for each triangle, in order. -/
theorem geometryBuffer_invariant :
    (∀ p ∈ (createBuffers 3 trianglesData).2.zip trianglesData,
        p.2.positions.length = 3 * p.1.vertexCount
      ∧ p.2.colors.length = 4 * p.1.vertexCount
      ∧ p.1.vertexCount = p.2.positions.length / 3)
  ∧ triangleData.positions.length = 3 * (triangleData.positions.length / 3)
  ∧ triangleData.colors.length = 4 * (triangleData.positions.length / 3)
  ∧ drawCounts (runTrace (runScript beGood 640 480))
      = trianglesData.map (fun td => td.positions.length / 3)
  ∧ drawCounts (runTraceS (runScriptSingle beGood 640 480))
      = [triangleData.positions.length / 3] := by
  decide

/-- Claim C8: no variant ever issues an `enable` capability call (in
particular depth testing is never explicitly enabled), on any backend; the
multi-triangle `drawScene` emits, on every call, a clear whose mask has the
depth-buffer bit (bit 8) set. -/
theorem no_explicit_depth_test :
    (∀ (be : GLBackend) (w h : ℚ) (cap : Nat),
        Evt.enableC cap ∉ runTrace (runScript be w h))
  ∧ (∀ (be : GLBackend) (w h : ℚ) (cap : Nat),
        Evt.enableC cap ∉ runTraceS (runScriptSingle be w h))
  ∧ (∀ s : SceneState,
        Evt.clearC (GL_COLOR_BUFFER_BIT ||| GL_DEPTH_BUFFER_BIT) ∈ (drawScene s).2)
  ∧ Nat.testBit (GL_COLOR_BUFFER_BIT ||| GL_DEPTH_BUFFER_BIT) 8 = true := by
  refine ⟨?_, ?_, ?_, by decide⟩
  · intro be w h cap
    unfold runScript
    split
    · simp [runTrace]
    · simp [runTrace, getAttribLocation, getUniformLocation,
            enableC_notin_createShader, enableC_notin_createProgram,
            enableC_notin_createBuffers, enableC_notin_drawScene]
  · intro be w h cap
    unfold runScriptSingle
    split
    · simp [runTraceS]
    · simp [runTraceS, getAttribLocation, getUniformLocation,
            enableC_notin_createShader, enableC_notin_createProgram,
            enableC_notin_drawSceneSingle]
  · intro s
    simp [drawScene]

/-- Claim C9: `drawScene` only reads the setup state — in both variants the
state it returns (context-independent module bindings: program handle,
location table, buffer handles with their vertex counts, canvas dimensions) is
exactly the state it was given. -/
theorem drawScene_reads_only :
    (∀ s : SceneState, (drawScene s).1 = s)
  ∧ (∀ s : SceneStateS, (drawSceneSingle s).1 = s) :=
  ⟨fun _ => rfl, fun _ => rfl⟩

/-- Claim C10: on link failure `createProgram` logs the diagnostic and returns
null without ever issuing a `deleteProgram` on the handle it created, whereas
`createShader` on a failed compile does issue `deleteShader` on its handle
before returning null. -/
theorem linkFailure_no_release (be : GLBackend) (program : Nat) (vs fs : Option Nat)
    (hl : be.linkStatus vs fs = false) :
    (createProgram be program vs fs).2 = none
  ∧ Evt.consoleError ("Program linking error: " ++ be.programInfoLog)
      ∈ (createProgram be program vs fs).1
  ∧ (∀ p, Evt.deleteProgramC p ∉ (createProgram be program vs fs).1)
  ∧ (∀ (sh : Nat) (t : ShaderType) (src : String), be.compileOk t src = false →
       Evt.deleteShaderC sh ∈ (createShader be sh t src).1) := by
  refine ⟨?_, ?_, ?_, ?_⟩
  · simp [createProgram, hl]
  · simp [createProgram, hl]
  · intro p
    simp [createProgram, hl]
  · intro sh t src hcp
    simp [createShader, hcp]

/-- Claim C10, witness for `linkFailure_no_release` at the concrete backend
`beAllFail` with both stage handles present. -/
theorem linkFailure_no_release_witness :
    beAllFail.linkStatus (some 0) (some 1) = false
  ∧ (createProgram beAllFail 2 (some 0) (some 1)).2 = none :=
  ⟨rfl, (linkFailure_no_release beAllFail 2 (some 0) (some 1) rfl).1⟩

end WebGLScene
